import Mathlib

/-!
Verification of the database connection lifecycle in `server.js`.

Shallow embedding of the connection lifecycle manager of the Tender-Tracker
backend (`src/server.js`): the module-level mutable state (`pool`,
`isConnected`, `connectionRetries`), the `connectDB` retry loop, the
keepalive-interval callback, the `GET /api/health` handler and the
`POST /api/query` handler.  Asynchrony is modelled by explicit state passing;
the outcome of each pool-creation/probe attempt and of each query execution is
supplied by an oracle, since the real outcomes come from the network.
-/

namespace TenderTracker

/-- `MAX_RETRIES = 5` from server.js line 37. -/
def MAX_RETRIES : Nat := 5

/-- `RETRY_DELAY = 5000` (ms) from server.js line 38. -/
def RETRY_DELAY : Nat := 5000

/-- `KEEPALIVE_INTERVAL = 30000` (ms) from server.js line 39. -/
def KEEPALIVE_INTERVAL : Nat := 30000

/-- The module-level mutable connection state of server.js lines 34–36:
`pool` (a nullable PoolHandle, modelled as `Option Nat` where the `Nat`
identifies the concrete handle), `isConnected`, and `connectionRetries`. -/
structure ServerState where
  pool : Option Nat
  isConnected : Bool
  connectionRetries : Nat
  deriving Repr, DecidableEq

/-- State at module load (server.js lines 34–36): `pool = null`,
`isConnected = false`, `connectionRetries = 0`. -/
def initialState : ServerState := ⟨none, false, 0⟩

/-- Result of one call to `connectDB`: the returned boolean, the state of the
module variables afterwards, the number of pool-creation/probe attempts the
call performed (each execution of the `try` block body counts as one), and the
total time spent in `setTimeout(RETRY_DELAY)` waits. -/
structure ConnectResult where
  ok : Bool
  state : ServerState
  attempts : Nat
  totalDelay : Nat
  deriving Repr, DecidableEq

/-- `connectDB` from server.js lines 63–114.  `missingEnv` models
`missingEnvVars.length > 0`; `oracle n` gives the outcome of the `n`-th
pool-creation/probe attempt (`pool.connect(); client.query('SELECT 1')`,
lines 76–77): `true` means the probe succeeds.  `attemptIdx` numbers the
attempts so that each attempt that reaches line 72 installs a fresh pool
handle `some (attemptIdx + 1)`.

On probe success (lines 80–82) the handle stays installed, `isConnected`
becomes true and the retry counter resets to 0.  On failure (lines 99–113)
`isConnected` is cleared, `pool` is nulled, and if `connectionRetries <
MAX_RETRIES` the counter is incremented and `connectDB` recurses after a
`RETRY_DELAY` wait; otherwise it settles with `false`. -/
def connectDB (missingEnv : Bool) (oracle : Nat → Bool) (attemptIdx : Nat)
    (s : ServerState) : ConnectResult :=
  if s.isConnected then ⟨true, s, 0, 0⟩
  else if missingEnv then ⟨false, s, 0, 0⟩
  else
    -- lines 68–72: end any previous pool, install a fresh one
    let s1 : ServerState := { s with pool := some (attemptIdx + 1) }
    if oracle attemptIdx then
      -- lines 80–82: probe succeeded
      ⟨true, { s1 with isConnected := true, connectionRetries := 0 }, 1, 0⟩
    else
      -- lines 99–102: probe failed
      let s2 : ServerState := { s1 with isConnected := false, pool := none }
      if h : s2.connectionRetries < MAX_RETRIES then
        -- lines 104–108: bounded retry after RETRY_DELAY
        let r := connectDB missingEnv oracle (attemptIdx + 1)
          { s2 with connectionRetries := s2.connectionRetries + 1 }
        ⟨r.ok, r.state, r.attempts + 1, r.totalDelay + RETRY_DELAY⟩
      else
        -- lines 109–112: retries exhausted, settle disconnected
        ⟨false, s2, 1, 0⟩
termination_by MAX_RETRIES - s.connectionRetries
decreasing_by simp only [s2, s1] at h ⊢; omega

/-- Result of one firing of the keepalive interval callback: the state of
the module variables afterwards, and the number of pool-creation/probe
attempts made by the `connectDB()` call it fires on probe failure (0 when no
reconnect was triggered). -/
structure KeepaliveResult where
  state : ServerState
  reconnectAttempts : Nat
  deriving Repr, DecidableEq

/-- The keepalive `setInterval` callback from server.js lines 85–96: if
`pool` is null it returns; otherwise it probes (`probeOk` is the outcome of
lines 88–89); on probe failure it sets `isConnected = false` and calls
`connectDB()` (whose attempt outcomes come from `oracle`). -/
def keepaliveTick (missingEnv : Bool) (oracle : Nat → Bool) (probeOk : Bool)
    (s : ServerState) : KeepaliveResult :=
  if s.pool.isNone then ⟨s, 0⟩
  else if probeOk then ⟨s, 0⟩
  else
    let r := connectDB missingEnv oracle 0 { s with isConnected := false }
    ⟨r.state, r.attempts⟩

/-- Result of one `GET /api/health` request: HTTP status, the value of the
`database` field of the JSON payload (`none` when the degraded catch-branch
payload of lines 148–152 carries no such field), whether a reconnect
(`connectDB()`) was fired, and the module state afterwards. -/
structure HealthResult where
  status : Nat
  database : Option String
  reconnectScheduled : Bool
  state : ServerState
  deriving Repr, DecidableEq

/-- The `GET /api/health` handler from server.js lines 117–154.
`internalErr` models the outer `try` block throwing before the response is
built (caught at lines 147–153); `probeOk` is the outcome of the optional
liveness probe of lines 133–134, consulted only when `isConnected && pool`. -/
def getHealth (missingEnv : Bool) (oracle : Nat → Bool) (probeOk : Bool)
    (internalErr : Bool) (s : ServerState) : HealthResult :=
  if internalErr then
    ⟨200, none, false, s⟩
  else if s.isConnected && s.pool.isSome then
    if probeOk then
      ⟨200, some "connected", false, s⟩
    else
      -- lines 137–143: probe failed, demote and fire connectDB()
      let r := connectDB missingEnv oracle 0 { s with isConnected := false }
      ⟨200, some "error", true, r.state⟩
  else
    ⟨200, some (if s.isConnected then "connected" else "disconnected"), false, s⟩

/-- A `POST /api/query` request body: `text` is `none` when the field is
absent (JS `undefined`); the empty string is also falsy for the `!text`
check of line 169. -/
structure QueryReq where
  text : Option String
  deriving Repr, DecidableEq

/-- The JS falsy test `!text` of server.js line 169. -/
def textMissing (req : QueryReq) : Bool :=
  match req.text with
  | none => true
  | some t => t == ""

/-- Outcome of the database interaction of a `POST /api/query` request that
reaches line 176: `pool.connect()` throws (`acquireFail`), or the client is
acquired and `client.query` succeeds (`queryOk`) or throws (`queryFail`).
An error carries its `code` property (`none` when absent) and message. -/
inductive ExecOutcome
  | acquireFail (code : Option String) (msg : String)
  | queryOk (rows : Nat)
  | queryFail (code : Option String) (msg : String)
  deriving Repr, DecidableEq

/-- The connection-reset error classification of server.js line 186:
`error.code === 'ECONNRESET' || error.code === '57P01'`. -/
def isResetCode (code : Option String) : Bool :=
  code == some "ECONNRESET" || code == some "57P01"

/-- Result of one `POST /api/query` request: HTTP status, the `message`
field of an error payload, whether a client was acquired from the pool,
whether it was released, whether a reconnect (`connectDB()`) was fired, and
the module state as left by the handler itself. -/
structure QueryHandlerResult where
  status : Nat
  message : Option String
  acquired : Bool
  released : Bool
  reconnectScheduled : Bool
  state : ServerState
  deriving Repr, DecidableEq

/-- The `POST /api/query` handler from server.js lines 157–200.  Guard order
is the source's: the not-connected check (line 158) precedes the missing-text
check (line 169), which precedes `pool.connect()` (line 176).  Any error in
the `try` block is classified at line 186: a reset-class code clears
`isConnected` and fires `connectDB()`; every error answers 500 with the
error message.  The `finally` block (lines 195–199) releases the client iff
one was assigned. -/
def postQuery (s : ServerState) (req : QueryReq) (exec : ExecOutcome) :
    QueryHandlerResult :=
  if !s.isConnected || s.pool.isNone then
    ⟨503, some "Database not connected", false, false, false, s⟩
  else if textMissing req then
    ⟨400, some "Query text is required", false, false, false, s⟩
  else
    match exec with
    | .acquireFail code msg =>
      -- `client` was never assigned, so `finally` does not release
      if isResetCode code then
        ⟨500, some msg, false, false, true, { s with isConnected := false }⟩
      else
        ⟨500, some msg, false, false, false, s⟩
    | .queryOk _ =>
      ⟨200, none, true, true, false, s⟩
    | .queryFail code msg =>
      if isResetCode code then
        ⟨500, some msg, true, true, true, { s with isConnected := false }⟩
      else
        ⟨500, some msg, true, true, false, s⟩

/-- The invariant of the module variables: whenever `isConnected` is true, a
pool handle is installed. -/
def poolInv (s : ServerState) : Prop :=
  s.isConnected = true → s.pool.isSome = true

instance (s : ServerState) : Decidable (poolInv s) := by
  unfold poolInv; infer_instance

/-!
Interleaving model for concurrent connect triggers.

`connectDB` is `async` and its body awaits at `pool.connect()` /
`client.query` (lines 76–77), so two calls triggered while `Disconnected`
can interleave.  Each task is the success path of `connectDB` split at its
await points into three atomic micro-steps: the `isConnected` check of line
64, the pool installation of line 72 (which creates a fresh PoolHandle), and
the probe completion of lines 76–81 which sets `isConnected = true`.
`poolsCreated` counts PoolHandle creations (`new Pool(...)`).
-/

/-- Program counter of one in-flight `connectDB` task on its success path. -/
inductive ConnPC
  | checkConnected
  | installPool
  | probe
  | finished
  deriving Repr, DecidableEq

/-- Shared module state plus the program counters of two concurrent
`connectDB` tasks and the count of PoolHandles created so far. -/
structure TwoTaskState where
  shared : ServerState
  poolsCreated : Nat
  pcA : ConnPC
  pcB : ConnPC
  deriving Repr, DecidableEq

/-- One atomic micro-step of a `connectDB` task (success path): line 64's
early return when already connected, else install a fresh pool (line 72),
then complete the probe and set `isConnected` (lines 76–81). -/
def stepConnect (pc : ConnPC) (sh : ServerState) (created : Nat) :
    ConnPC × ServerState × Nat :=
  match pc with
  | .checkConnected =>
      if sh.isConnected then (.finished, sh, created)
      else (.installPool, sh, created)
  | .installPool =>
      (.probe, { sh with pool := some (created + 1) }, created + 1)
  | .probe =>
      (.finished, { sh with isConnected := true, connectionRetries := 0 }, created)
  | .finished => (.finished, sh, created)

/-- Run a schedule over the two tasks: `true` steps task A, `false` steps
task B.  The cooperative scheduler may hand control to either task at each
await point; the source has no in-progress guard, so nothing constrains the
schedule. -/
def runSchedule : List Bool → TwoTaskState → TwoTaskState
  | [], st => st
  | isA :: rest, st =>
      if isA then
        let r := stepConnect st.pcA st.shared st.poolsCreated
        runSchedule rest { st with pcA := r.1, shared := r.2.1, poolsCreated := r.2.2 }
      else
        let r := stepConnect st.pcB st.shared st.poolsCreated
        runSchedule rest { st with pcB := r.1, shared := r.2.1, poolsCreated := r.2.2 }

/-- Both tasks poised to run `connectDB` on the disconnected initial state. -/
def raceStart : TwoTaskState := ⟨initialState, 0, .checkConnected, .checkConnected⟩

/-- The racy schedule: both tasks pass the `isConnected` check of line 64
before either installs a pool, then each installs its own pool. -/
def raceSchedule : List Bool := [true, false, true, true, false, false]

/-- The all-fail oracle: every pool-creation/probe attempt fails. -/
def alwaysFail : Nat → Bool := fun _ => false

/-!
Helper lemmas about `connectDB`.
-/

/-- Unfolding equation for `connectDB` with the `let`-bound intermediate
states normalised away. -/
lemma connectDB_eq (m : Bool) (oracle : Nat → Bool) (i : Nat) (s : ServerState) :
    connectDB m oracle i s =
      if s.isConnected then ⟨true, s, 0, 0⟩
      else if m then ⟨false, s, 0, 0⟩
      else if oracle i then ⟨true, ⟨some (i + 1), true, 0⟩, 1, 0⟩
      else if s.connectionRetries < MAX_RETRIES then
        let r := connectDB m oracle (i + 1) ⟨none, false, s.connectionRetries + 1⟩
        ⟨r.ok, r.state, r.attempts + 1, r.totalDelay + RETRY_DELAY⟩
      else ⟨false, ⟨none, false, s.connectionRetries⟩, 1, 0⟩ := by
  rw [connectDB]
  rfl

/-- One `connectDB` call makes at most `MAX_RETRIES - connectionRetries + 1`
pool-creation/probe attempts. -/
lemma connectDB_attempts_le (m : Bool) (oracle : Nat → Bool)
    (i : Nat) (s : ServerState) :
    (connectDB m oracle i s).attempts ≤ (MAX_RETRIES - s.connectionRetries) + 1 := by
  induction i, s using connectDB.induct m oracle with
  | case1 i s hc => rw [connectDB_eq]; simp [hc]
  | case2 i s hc hm => rw [connectDB_eq]; simp [hc, hm]
  | case3 i s hc hm ho => rw [connectDB_eq]; simp [hc, hm, ho]
  | case4 i s hc hm s1 ho s2 hlt ih =>
      simp only [Bool.not_eq_true] at hc hm ho
      simp only [s2, s1] at hlt
      rw [connectDB_eq]
      simp only [hc, hm, ho, Bool.false_eq_true, if_false]
      rw [if_pos hlt]
      simp only [hm] at ih
      simp only at ih ⊢
      omega
  | case5 i s hc hm s1 ho s2 hge =>
      simp only [Bool.not_eq_true] at hc hm ho
      simp only [s2, s1] at hge
      rw [connectDB_eq]
      simp only [hc, hm, ho, Bool.false_eq_true, if_false]
      rw [if_neg hge]
      simp only
      omega

/-- A `connectDB` call that is not short-circuited (environment present,
not already connected) makes at least one attempt. -/
lemma connectDB_attempts_pos (oracle : Nat → Bool) (i : Nat) (s : ServerState)
    (hc : s.isConnected = false) :
    1 ≤ (connectDB false oracle i s).attempts := by
  rw [connectDB_eq]
  simp only [hc, Bool.false_eq_true, if_false]
  by_cases ho : oracle i = true
  · simp [ho]
  · simp only [ho, Bool.false_eq_true, if_false]
    by_cases hlt : s.connectionRetries < MAX_RETRIES
    · rw [if_pos hlt]; simp
    · rw [if_neg hlt]

/-- The time a `connectDB` call spends waiting is exactly one fixed
`RETRY_DELAY` between consecutive attempts. -/
lemma connectDB_delay (m : Bool) (oracle : Nat → Bool)
    (i : Nat) (s : ServerState) :
    (connectDB m oracle i s).totalDelay
      = ((connectDB m oracle i s).attempts - 1) * RETRY_DELAY := by
  induction i, s using connectDB.induct m oracle with
  | case1 i s hc => rw [connectDB_eq]; simp [hc]
  | case2 i s hc hm => rw [connectDB_eq]; simp [hc, hm]
  | case3 i s hc hm ho => rw [connectDB_eq]; simp [hc, hm, ho]
  | case4 i s hc hm s1 ho s2 hlt ih =>
      simp only [Bool.not_eq_true] at hc hm ho
      simp only [s2, s1] at hlt
      rw [connectDB_eq]
      simp only [hc, hm, ho, Bool.false_eq_true, if_false]
      rw [if_pos hlt]
      simp only [hm] at ih
      simp only at ih ⊢
      have hpos := connectDB_attempts_pos oracle (i + 1)
        ⟨none, false, s.connectionRetries + 1⟩ rfl
      rw [ih]
      have h2 : (connectDB false oracle (i + 1)
          ⟨none, false, s.connectionRetries + 1⟩).attempts + 1 - 1
          = ((connectDB false oracle (i + 1)
          ⟨none, false, s.connectionRetries + 1⟩).attempts - 1) + 1 := by omega
      rw [h2, Nat.succ_mul]
  | case5 i s hc hm s1 ho s2 hge =>
      simp only [Bool.not_eq_true] at hc hm ho
      simp only [s2, s1] at hge
      rw [connectDB_eq]
      simp only [hc, hm, ho, Bool.false_eq_true, if_false]
      rw [if_neg hge]
      simp

/-- When every attempt fails, `connectDB` returns `false`, leaves the state
disconnected with a null pool, and makes exactly
`MAX_RETRIES - connectionRetries + 1` attempts. -/
lemma connectDB_allFail (oracle : Nat → Bool) (hf : ∀ n, oracle n = false)
    (i : Nat) (s : ServerState) (hc : s.isConnected = false) :
    (connectDB false oracle i s).ok = false ∧
    (connectDB false oracle i s).state.isConnected = false ∧
    (connectDB false oracle i s).state.pool = none ∧
    (connectDB false oracle i s).attempts
      = (MAX_RETRIES - s.connectionRetries) + 1 := by
  induction i, s using connectDB.induct false oracle with
  | case1 i s hc2 => rw [hc] at hc2; cases hc2
  | case2 i s hc2 hm => cases hm
  | case3 i s hc2 hm ho => rw [hf i] at ho; cases ho
  | case4 i s hc2 hm s1 ho s2 hlt ih =>
      simp only [s2, s1] at hlt
      rw [connectDB_eq]
      simp only [hc, hf, Bool.false_eq_true, if_false]
      rw [if_pos hlt]
      have ih2 := ih rfl
      simp only at ih2 ⊢
      refine ⟨ih2.1, ih2.2.1, ih2.2.2.1, ?_⟩
      rw [ih2.2.2.2]
      omega
  | case5 i s hc2 hm s1 ho s2 hge =>
      simp only [s2, s1] at hge
      rw [connectDB_eq]
      simp only [hc, hf, Bool.false_eq_true, if_false]
      rw [if_neg hge]
      refine ⟨rfl, rfl, rfl, ?_⟩
      simp only
      omega

/-- `connectDB` preserves the pool invariant. -/
lemma connectDB_poolInv (m : Bool) (oracle : Nat → Bool) (i : Nat)
    (s : ServerState) (h : poolInv s) :
    poolInv (connectDB m oracle i s).state := by
  induction i, s using connectDB.induct m oracle with
  | case1 i s hc => rw [connectDB_eq]; rw [if_pos hc]; exact h
  | case2 i s hc hm =>
      simp only [Bool.not_eq_true] at hc
      rw [connectDB_eq]
      simp only [hc, Bool.false_eq_true, if_false, hm, if_true]
      exact h
  | case3 i s hc hm ho =>
      simp only [Bool.not_eq_true] at hc hm
      rw [connectDB_eq]
      simp [hc, hm, ho, poolInv]
  | case4 i s hc hm s1 ho s2 hlt ih =>
      simp only [Bool.not_eq_true] at hc hm ho
      subst hm
      simp only [s2, s1] at hlt
      rw [connectDB_eq]
      simp only [hc, ho, Bool.false_eq_true, if_false]
      rw [if_pos hlt]
      have ih2 := ih (by intro hx; cases hx)
      simpa using ih2
  | case5 i s hc hm s1 ho s2 hge =>
      simp only [Bool.not_eq_true] at hc hm ho
      subst hm
      simp only [s2, s1] at hge
      rw [connectDB_eq]
      simp only [hc, ho, Bool.false_eq_true, if_false]
      rw [if_neg hge]
      intro hx
      cases hx

/-- Starting from a disconnected state, the connected flag can only come out
of `connectDB` set when the call returned `true` — i.e. when a pool was
installed and its probe succeeded — and then a pool handle is present. -/
lemma connectDB_connected_imp_ok (m : Bool) (oracle : Nat → Bool) (i : Nat)
    (s : ServerState) (hc : s.isConnected = false)
    (hres : (connectDB m oracle i s).state.isConnected = true) :
    (connectDB m oracle i s).ok = true ∧
    ((connectDB m oracle i s).state.pool).isSome = true := by
  induction i, s using connectDB.induct m oracle with
  | case1 i s hc2 => rw [hc] at hc2; cases hc2
  | case2 i s hc2 hm =>
      rw [connectDB_eq] at hres
      simp only [Bool.not_eq_true] at hc2
      simp only [hc, hm, Bool.false_eq_true, if_false, if_true] at hres
  | case3 i s hc2 hm ho =>
      simp only [Bool.not_eq_true] at hc2 hm
      rw [connectDB_eq]
      simp [hc, hm, ho]
  | case4 i s hc2 hm s1 ho s2 hlt ih =>
      simp only [Bool.not_eq_true] at hc2 hm ho
      subst hm
      simp only [s2, s1] at hlt
      rw [connectDB_eq] at hres ⊢
      simp only [hc, ho, Bool.false_eq_true, if_false] at hres ⊢
      rw [if_pos hlt] at hres ⊢
      simp only at hres ⊢
      exact ih rfl hres
  | case5 i s hc2 hm s1 ho s2 hge =>
      simp only [Bool.not_eq_true] at hc2 hm ho
      subst hm
      simp only [s2, s1] at hge
      rw [connectDB_eq] at hres
      simp only [hc, ho, Bool.false_eq_true, if_false] at hres
      rw [if_neg hge] at hres
      cases hres

/-!
Claim theorems.
-/

/-- Claim C1 (counterexample): with every pool-creation/probe attempt failing
from the fresh state, `connectDB` does NOT stop after 5 attempts — it makes a
6th attempt (the initial attempt plus `MAX_RETRIES = 5` retries), so the
claim "exactly 5 attempts in total and no 6th attempt" is false on the code. -/
theorem C1_counterexample :
    (connectDB false alwaysFail 0 initialState).attempts = 6 ∧
    (connectDB false alwaysFail 0 initialState).attempts ≠ 5 ∧
    (connectDB false alwaysFail 0 initialState).state.isConnected = false := by
  refine ⟨?_, ?_, ?_⟩ <;>
    simp [connectDB, initialState, MAX_RETRIES, alwaysFail]

/-- Claim C1 (amended): for every connect sequence in which every
pool-creation/probe attempt fails, starting disconnected with a zero retry
counter, the connect logic performs exactly 6 attempts in total (the initial
attempt plus `MAX_RETRIES = 5` retries), then settles with the connected
flag false and a null pool, and no 7th attempt is made within that retry
sequence. -/
theorem C1_retry_exhaustion (oracle : Nat → Bool) (hf : ∀ n, oracle n = false)
    (p : Option Nat) :
    (connectDB false oracle 0 ⟨p, false, 0⟩).attempts = 6 ∧
    (connectDB false oracle 0 ⟨p, false, 0⟩).ok = false ∧
    (connectDB false oracle 0 ⟨p, false, 0⟩).state.isConnected = false ∧
    (connectDB false oracle 0 ⟨p, false, 0⟩).state.pool = none := by
  have h := connectDB_allFail oracle hf 0 ⟨p, false, 0⟩ rfl
  refine ⟨?_, h.1, h.2.1, h.2.2.1⟩
  rw [h.2.2.2]
  rfl

/-- Claim C1 witness: `C1_retry_exhaustion` instantiated with the all-fail
oracle and a null starting pool. -/
theorem C1_witness :
    (∀ n, alwaysFail n = false) ∧
    ((connectDB false alwaysFail 0 ⟨none, false, 0⟩).attempts = 6 ∧
     (connectDB false alwaysFail 0 ⟨none, false, 0⟩).ok = false ∧
     (connectDB false alwaysFail 0 ⟨none, false, 0⟩).state.isConnected = false ∧
     (connectDB false alwaysFail 0 ⟨none, false, 0⟩).state.pool = none) :=
  ⟨fun _ => rfl, C1_retry_exhaustion alwaysFail (fun _ => rfl) none⟩

/-- Claim C2: two concurrent connect triggers that both observe the
disconnected state must create exactly one PoolHandle.  The source has no
in-progress guard, so the interleaving in which both tasks pass the
`isConnected` check of line 64 before either installs a pool creates TWO
PoolHandles: the code contradicts the claim (the spec itself flags the
missing guard as a required correctness fix). -/
theorem C2_race_two_pools :
    (runSchedule raceSchedule raceStart).poolsCreated = 2 ∧
    (runSchedule raceSchedule raceStart).shared.isConnected = true ∧
    (runSchedule raceSchedule raceStart).pcA = ConnPC.finished ∧
    (runSchedule raceSchedule raceStart).pcB = ConnPC.finished := by
  decide

/-- Claim C3 (counterexample): a keepalive probe failure while connected does
NOT trigger only a single reconnect attempt: the fired `connectDB()` call is
subject to the same bounded retry policy as the initial connect (the counter
was reset to 0 on the previous success), so with every attempt failing it
performs 6 pool-creation/probe attempts, not 1. -/
theorem C3_counterexample :
    (keepaliveTick false alwaysFail false ⟨some 1, true, 0⟩).reconnectAttempts = 6 ∧
    (keepaliveTick false alwaysFail false ⟨some 1, true, 0⟩).reconnectAttempts ≠ 1 := by
  refine ⟨?_, ?_⟩ <;>
    simp [keepaliveTick, connectDB, MAX_RETRIES, alwaysFail]

/-- Claim C3 (amended): a keepalive probe failure while connected demotes the
state and fires exactly one `connectDB()` reconnect sequence, but that
sequence follows the same bounded retry policy as the initial connect: with
the retry counter at 0 it performs between 1 and `MAX_RETRIES + 1 = 6`
pool-creation/probe attempts (not necessarily a single one). -/
theorem C3_keepalive_burst (oracle : Nat → Bool) (s : ServerState)
    (hp : s.pool.isSome = true) (hr : s.connectionRetries = 0) :
    1 ≤ (keepaliveTick false oracle false s).reconnectAttempts ∧
    (keepaliveTick false oracle false s).reconnectAttempts ≤ MAX_RETRIES + 1 := by
  have hn : s.pool.isNone = false := by
    cases hx : s.pool <;> simp_all
  unfold keepaliveTick
  simp only [hn, Bool.false_eq_true, if_false]
  constructor
  · exact connectDB_attempts_pos oracle 0 _ rfl
  · have h := connectDB_attempts_le false oracle 0 ⟨s.pool, false, s.connectionRetries⟩
    simp only at h ⊢
    rw [hr] at h ⊢
    simpa using h

/-- Claim C3 witness: `C3_keepalive_burst` instantiated with the all-fail
oracle on a connected state with pool handle 1 and retry counter 0. -/
theorem C3_witness :
    ((⟨some 1, true, 0⟩ : ServerState).pool.isSome = true) ∧
    ((⟨some 1, true, 0⟩ : ServerState).connectionRetries = 0) ∧
    (1 ≤ (keepaliveTick false alwaysFail false ⟨some 1, true, 0⟩).reconnectAttempts ∧
     (keepaliveTick false alwaysFail false ⟨some 1, true, 0⟩).reconnectAttempts
       ≤ MAX_RETRIES + 1) :=
  ⟨rfl, rfl, C3_keepalive_burst alwaysFail ⟨some 1, true, 0⟩ rfl rfl⟩

/-- Claim C4: every `POST /api/query` request arriving while the connected
flag is false or the pool is null is answered 503 immediately, with no
client acquired from the pool. -/
theorem C4_query_503_when_disconnected (s : ServerState) (req : QueryReq)
    (exec : ExecOutcome) (h : s.isConnected = false ∨ s.pool = none) :
    (postQuery s req exec).status = 503 ∧
    (postQuery s req exec).acquired = false ∧
    (postQuery s req exec).message = some "Database not connected" := by
  have hg : (!s.isConnected || s.pool.isNone) = true := by
    rcases h with h | h <;> simp [h]
  simp [postQuery, hg]

/-- Claim C4 witness: `C4_query_503_when_disconnected` at the fresh
disconnected state. -/
theorem C4_witness :
    (initialState.isConnected = false ∨ initialState.pool = none) ∧
    ((postQuery initialState ⟨some "SELECT 1"⟩ (.queryOk 0)).status = 503 ∧
     (postQuery initialState ⟨some "SELECT 1"⟩ (.queryOk 0)).acquired = false ∧
     (postQuery initialState ⟨some "SELECT 1"⟩ (.queryOk 0)).message
       = some "Database not connected") :=
  ⟨Or.inl rfl,
   C4_query_503_when_disconnected initialState ⟨some "SELECT 1"⟩ (.queryOk 0)
     (Or.inl rfl)⟩

/-- Claim C5: for every query-execution failure in `POST /api/query`, if the
error code is of the connection-reset class (`ECONNRESET` or `57P01`) the
handler answers 500 with the error message, clears the connected flag
(leaving pool handle and retry counter untouched) and schedules a reconnect;
for every other error it answers 500 with the error message and leaves the
lifecycle state (connected flag, pool handle, retry counter) unchanged. -/
theorem C5_query_error_classification (s : ServerState) (req : QueryReq)
    (code : Option String) (msg : String)
    (hc : s.isConnected = true) (hp : s.pool.isSome = true)
    (ht : textMissing req = false) :
    (isResetCode code = true →
      (postQuery s req (.queryFail code msg)).status = 500 ∧
      (postQuery s req (.queryFail code msg)).message = some msg ∧
      (postQuery s req (.queryFail code msg)).state.isConnected = false ∧
      (postQuery s req (.queryFail code msg)).state.pool = s.pool ∧
      (postQuery s req (.queryFail code msg)).state.connectionRetries
        = s.connectionRetries ∧
      (postQuery s req (.queryFail code msg)).reconnectScheduled = true) ∧
    (isResetCode code = false →
      (postQuery s req (.queryFail code msg)).status = 500 ∧
      (postQuery s req (.queryFail code msg)).message = some msg ∧
      (postQuery s req (.queryFail code msg)).state = s ∧
      (postQuery s req (.queryFail code msg)).reconnectScheduled = false) := by
  have hn : s.pool.isNone = false := by
    cases hx : s.pool <;> simp_all
  constructor <;> intro hr <;> simp [postQuery, hc, hn, ht, hr]

/-- Claim C5 witness: `C5_query_error_classification` on a connected state
with an `ECONNRESET` query failure. -/
theorem C5_witness_reset :
    (postQuery ⟨some 1, true, 0⟩ ⟨some "SELECT 1"⟩
        (.queryFail (some "ECONNRESET") "socket hang up")).status = 500 ∧
    (postQuery ⟨some 1, true, 0⟩ ⟨some "SELECT 1"⟩
        (.queryFail (some "ECONNRESET") "socket hang up")).message
      = some "socket hang up" ∧
    (postQuery ⟨some 1, true, 0⟩ ⟨some "SELECT 1"⟩
        (.queryFail (some "ECONNRESET") "socket hang up")).state.isConnected
      = false ∧
    (postQuery ⟨some 1, true, 0⟩ ⟨some "SELECT 1"⟩
        (.queryFail (some "ECONNRESET") "socket hang up")).state.pool
      = (⟨some 1, true, 0⟩ : ServerState).pool ∧
    (postQuery ⟨some 1, true, 0⟩ ⟨some "SELECT 1"⟩
        (.queryFail (some "ECONNRESET") "socket hang up")).state.connectionRetries
      = (⟨some 1, true, 0⟩ : ServerState).connectionRetries ∧
    (postQuery ⟨some 1, true, 0⟩ ⟨some "SELECT 1"⟩
        (.queryFail (some "ECONNRESET") "socket hang up")).reconnectScheduled
      = true :=
  (C5_query_error_classification ⟨some 1, true, 0⟩ ⟨some "SELECT 1"⟩
    (some "ECONNRESET") "socket hang up" rfl rfl (by decide)).1 (by decide)

/-- Claim C6: every `GET /api/health` request is answered with HTTP status
200, whatever the internal database state, the probe outcome, or an internal
error in the handler body. -/
theorem C6_health_always_200 (m : Bool) (oracle : Nat → Bool)
    (probeOk internalErr : Bool) (s : ServerState) :
    (getHealth m oracle probeOk internalErr s).status = 200 := by
  unfold getHealth
  by_cases he : internalErr = true
  · simp [he]
  · simp only [Bool.not_eq_true] at he
    by_cases hc : (s.isConnected && s.pool.isSome) = true
    · by_cases hpk : probeOk = true <;> simp [he, hc, hpk]
    · simp only [Bool.not_eq_true] at hc
      simp [he, hc]

/-- Claim C7: on every exit path of `POST /api/query` on which a client was
acquired from the pool — query success and query failure alike — the
`finally` block releases the client. -/
theorem C7_client_released (s : ServerState) (req : QueryReq) (exec : ExecOutcome)
    (h : (postQuery s req exec).acquired = true) :
    (postQuery s req exec).released = true := by
  by_cases hg : (!s.isConnected || s.pool.isNone) = true
  · simp [postQuery, hg] at h
  · simp only [Bool.not_eq_true] at hg
    by_cases ht : textMissing req = true
    · simp [postQuery, hg, ht] at h
    · simp only [Bool.not_eq_true] at ht
      cases exec with
      | acquireFail code msg =>
          by_cases hr : isResetCode code = true <;>
            simp [postQuery, hg, ht, hr] at h
      | queryOk rows => simp [postQuery, hg, ht]
      | queryFail code msg =>
          by_cases hr : isResetCode code = true <;>
            simp [postQuery, hg, ht, hr]

/-- Claim C7 witness: `C7_client_released` on a connected state with a
generic (non-reset) query failure. -/
theorem C7_witness :
    (postQuery ⟨some 1, true, 0⟩ ⟨some "SELECT 1"⟩
        (.queryFail (some "42601") "syntax error")).acquired = true ∧
    (postQuery ⟨some 1, true, 0⟩ ⟨some "SELECT 1"⟩
        (.queryFail (some "42601") "syntax error")).released = true :=
  ⟨by decide,
   C7_client_released ⟨some 1, true, 0⟩ ⟨some "SELECT 1"⟩
     (.queryFail (some "42601") "syntax error") (by decide)⟩

/-- Claim C8: `connectDB` terminates for every input — the retry is bounded
by the attempt counter: at most `MAX_RETRIES - connectionRetries + 1`
attempts (hence at most `MAX_RETRIES + 1 = 6` overall), with exactly one
fixed `RETRY_DELAY = 5000` ms wait between consecutive attempts. -/
theorem C8_retry_bounded (m : Bool) (oracle : Nat → Bool) (i : Nat)
    (s : ServerState) :
    (connectDB m oracle i s).attempts ≤ (MAX_RETRIES - s.connectionRetries) + 1 ∧
    (connectDB m oracle i s).attempts ≤ MAX_RETRIES + 1 ∧
    (connectDB m oracle i s).totalDelay
      = ((connectDB m oracle i s).attempts - 1) * RETRY_DELAY := by
  have h1 := connectDB_attempts_le m oracle i s
  exact ⟨h1, by omega, connectDB_delay m oracle i s⟩

/-- Claim C9: the invariant "connected flag implies a non-null pool" is
preserved by every operation — `connectDB` (connect success and failure),
the keepalive callback, the health handler and the query handler — and the
flag can only come out of `connectDB` newly set when the call succeeded, in
which case a pool handle is installed. -/
theorem C9_pool_invariant (m : Bool) (oracle : Nat → Bool) (i : Nat)
    (probeOk internalErr : Bool) (req : QueryReq) (exec : ExecOutcome)
    (s : ServerState) (h : poolInv s) :
    poolInv (connectDB m oracle i s).state ∧
    poolInv (keepaliveTick m oracle probeOk s).state ∧
    poolInv (getHealth m oracle probeOk internalErr s).state ∧
    poolInv (postQuery s req exec).state ∧
    (s.isConnected = false → (connectDB m oracle i s).state.isConnected = true →
      (connectDB m oracle i s).ok = true ∧
      ((connectDB m oracle i s).state.pool).isSome = true) := by
  refine ⟨connectDB_poolInv m oracle i s h, ?_, ?_, ?_,
    fun hc hres => connectDB_connected_imp_ok m oracle i s hc hres⟩
  · unfold keepaliveTick
    by_cases hn : s.pool.isNone = true
    · simp only [hn, if_true]
      exact h
    · simp only [Bool.not_eq_true] at hn
      by_cases hpk : probeOk = true
      · simp only [hn, hpk, Bool.false_eq_true, if_false, if_true]
        exact h
      · simp only [Bool.not_eq_true] at hpk
        simp only [hn, hpk, Bool.false_eq_true, if_false]
        exact connectDB_poolInv m oracle 0 _ (by intro hx; simp at hx)
  · unfold getHealth
    by_cases he : internalErr = true
    · simp only [he, if_true]
      exact h
    · simp only [Bool.not_eq_true] at he
      by_cases hc : (s.isConnected && s.pool.isSome) = true
      · by_cases hpk : probeOk = true
        · simp only [he, hc, hpk, Bool.false_eq_true, if_false, if_true]
          exact h
        · simp only [Bool.not_eq_true] at hpk
          simp only [he, hc, hpk, Bool.false_eq_true, if_false, if_true]
          exact connectDB_poolInv m oracle 0 _ (by intro hx; simp at hx)
      · simp only [Bool.not_eq_true] at hc
        simp only [he, hc, Bool.false_eq_true, if_false]
        exact h
  · by_cases hg : (!s.isConnected || s.pool.isNone) = true
    · simp only [postQuery, hg, if_true]
      exact h
    · simp only [Bool.not_eq_true] at hg
      by_cases ht : textMissing req = true
      · simp only [postQuery, hg, ht, Bool.false_eq_true, if_false, if_true]
        exact h
      · simp only [Bool.not_eq_true] at ht
        cases exec with
        | acquireFail code msg =>
            by_cases hr : isResetCode code = true <;>
              simp only [postQuery, hg, ht, hr, Bool.false_eq_true, if_false,
                if_true] <;>
              first
                | exact h
                | intro hx; simp at hx
        | queryOk rows =>
            simp only [postQuery, hg, ht, Bool.false_eq_true, if_false]
            exact h
        | queryFail code msg =>
            by_cases hr : isResetCode code = true <;>
              simp only [postQuery, hg, ht, hr, Bool.false_eq_true, if_false,
                if_true] <;>
              first
                | exact h
                | intro hx; simp at hx

/-- Claim C9 witness: `C9_pool_invariant` on the connected state with pool
handle 1, all-fail oracle and a successful query. -/
theorem C9_witness :
    poolInv ⟨some 1, true, 0⟩ ∧
    (poolInv (connectDB false alwaysFail 0 ⟨some 1, true, 0⟩).state ∧
     poolInv (keepaliveTick false alwaysFail false ⟨some 1, true, 0⟩).state ∧
     poolInv (getHealth false alwaysFail false false ⟨some 1, true, 0⟩).state ∧
     poolInv (postQuery ⟨some 1, true, 0⟩ ⟨some "SELECT 1"⟩ (.queryOk 0)).state ∧
     ((⟨some 1, true, 0⟩ : ServerState).isConnected = false →
       (connectDB false alwaysFail 0 ⟨some 1, true, 0⟩).state.isConnected = true →
       (connectDB false alwaysFail 0 ⟨some 1, true, 0⟩).ok = true ∧
       ((connectDB false alwaysFail 0 ⟨some 1, true, 0⟩).state.pool).isSome
         = true)) :=
  ⟨fun _ => rfl,
   C9_pool_invariant false alwaysFail 0 false false ⟨some "SELECT 1"⟩ (.queryOk 0)
     ⟨some 1, true, 0⟩ (fun _ => rfl)⟩

/-- Claim C10: the not-connected check of line 158 strictly precedes the
missing-text check of line 169: a request with missing or empty query text
in a non-connected state is answered 503, not 400; and a 400 response can
only arise in the connected state, before any client is acquired. -/
theorem C10_guard_order (s : ServerState) (req : QueryReq) (exec : ExecOutcome) :
    ((s.isConnected = false ∨ s.pool = none) → textMissing req = true →
      (postQuery s req exec).status = 503) ∧
    ((postQuery s req exec).status = 400 →
      s.isConnected = true ∧ s.pool.isSome = true ∧
      (postQuery s req exec).acquired = false) := by
  constructor
  · intro h _
    have hg : (!s.isConnected || s.pool.isNone) = true := by
      rcases h with h | h <;> simp [h]
    simp [postQuery, hg]
  · intro h400
    by_cases hg : (!s.isConnected || s.pool.isNone) = true
    · simp [postQuery, hg] at h400
    · simp only [Bool.not_eq_true] at hg
      have hc : s.isConnected = true := by
        by_cases hx : s.isConnected = true
        · exact hx
        · simp only [Bool.not_eq_true] at hx
          simp [hx] at hg
      have hp : s.pool.isSome = true := by
        cases hx : s.pool
        · simp [hx] at hg
        · rfl
      refine ⟨hc, hp, ?_⟩
      by_cases ht : textMissing req = true
      · simp [postQuery, hg, ht]
      · simp only [Bool.not_eq_true] at ht
        cases exec with
        | acquireFail code msg =>
            by_cases hr : isResetCode code = true <;>
              simp [postQuery, hg, ht, hr] at h400
        | queryOk rows => simp [postQuery, hg, ht] at h400
        | queryFail code msg =>
            by_cases hr : isResetCode code = true <;>
              simp [postQuery, hg, ht, hr] at h400

/-- Claim C10 witness: `C10_guard_order` on the fresh disconnected state with
an empty query text — the response is 503, not 400. -/
theorem C10_witness :
    (postQuery initialState ⟨some ""⟩ (.queryOk 0)).status = 503 :=
  (C10_guard_order initialState ⟨some ""⟩ (.queryOk 0)).1 (Or.inl rfl) rfl

end TenderTracker
